import Mathlib

/-!
Verification of the KPI derivation engine of the financial-metrics
dashboard (calculadora-de-kpis).

The status classifier (`trafficLight`), display formatter (`formatValue`)
and metric registry (`KPI_META`) are translated from
`frontend/src/lib/kpiMeta.js`; trend computation from
`frontend/src/pages/KpiDetailPage.jsx`; registry lookup defaulting from
`KpiCard.jsx` / `KpiDetailPage.jsx`.  JavaScript numbers are idealised as
rationals, extended with `nan` / `posInf` / `negInf` where IEEE special
values matter for the classifier; `null`/`undefined` is `Option.none`.

The backend calculators (single-period formulas, cross-period growth,
cumulative cashflow, period normalizer) live in the backend `server.py`,
which is not part of the frontend sources; those are modelled from the
specification, as marked on each definition.
-/

/-- A JavaScript number: a finite rational, an infinity, or NaN. -/
inductive JNum where
  | num : ℚ → JNum
  | posInf : JNum
  | negInf : JNum
  | nan : JNum
deriving DecidableEq

/-- IEEE `<` against a finite threshold: any comparison with NaN is false,
`-∞ < q` is true, `+∞ < q` is false. -/
def JNum.ltQ : JNum → ℚ → Bool
  | JNum.num a, q => decide (a < q)
  | JNum.posInf, _ => false
  | JNum.negInf, _ => true
  | JNum.nan, _ => false

/-- IEEE `≤` against a finite threshold: any comparison with NaN is false. -/
def JNum.leQ : JNum → ℚ → Bool
  | JNum.num a, q => decide (a ≤ q)
  | JNum.posInf, _ => false
  | JNum.negInf, _ => true
  | JNum.nan, _ => false

/-- A status-band rule, the JS object `{ type, redMax, yellowMax, greenMax }`
from `KPI_META`.  The classifier dispatches on the `type` string; only the
fields the matched branch reads are meaningful (high_good reads
`redMax`/`yellowMax`, low_good reads `greenMax`/`yellowMax`).  Fields a rule
never carries in the registry are set to 0 and never read. -/
structure Rule where
  type_ : String
  redMax : ℚ := 0
  yellowMax : ℚ := 0
  greenMax : ℚ := 0
deriving DecidableEq

/-- A registry entry `{ title, unit, rule }` from `KPI_META`. -/
structure Meta where
  title : String
  unit : Option String := none
  rule : Option Rule := none
deriving DecidableEq

/-- The result object of `trafficLight`: `{ label, dot, color }`. -/
structure Semaforo where
  label : String
  dot : String
  color : String
deriving DecidableEq

def semSinSemaforo : Semaforo := ⟨"Sin semáforo", "bg-zinc-500", "zinc"⟩
def semCritico : Semaforo := ⟨"Crítico", "bg-red-500", "red"⟩
def semAtencion : Semaforo := ⟨"Atención", "bg-amber-500", "amber"⟩
def semSaludable : Semaforo := ⟨"Saludable", "bg-emerald-500", "emerald"⟩
def semOK : Semaforo := ⟨"OK", "bg-emerald-500", "emerald"⟩

/-- `trafficLight(value, meta)` from `kpiMeta.js`.  A `null`/`undefined`
value, an `undefined` meta, or a meta without a rule short-circuits to the
"Sin semáforo" result; then the rule's `type` string is dispatched on, with
an `OK` fallthrough for any other type. -/
def trafficLight (value : Option JNum) (meta : Option Meta) : Semaforo :=
  match value, meta.bind Meta.rule with
  | none, _ => semSinSemaforo
  | some _, none => semSinSemaforo
  | some v, some r =>
    if r.type_ = "high_good" then
      if v.ltQ r.redMax then semCritico
      else if v.ltQ r.yellowMax then semAtencion
      else semSaludable
    else if r.type_ = "low_good" then
      if v.leQ r.greenMax then semSaludable
      else if v.leQ r.yellowMax then semAtencion
      else semCritico
    else semOK

/-- A `high_good` rule object `{ type: "high_good", redMax, yellowMax }`. -/
def highGood (rM yM : ℚ) : Rule := { type_ := "high_good", redMax := rM, yellowMax := yM }

/-- A `low_good` rule object `{ type: "low_good", greenMax, yellowMax }`. -/
def lowGood (gM yM : ℚ) : Rule := { type_ := "low_good", greenMax := gM, yellowMax := yM }

/-- The static metric registry `KPI_META` from `kpiMeta.js`, as an
association list from KPI key to its entry. -/
def KPI_META : List (String × Meta) := [
  ("margen_neto", ⟨"Margen Neto", some "pct", some (highGood (5/100) (15/100))⟩),
  ("margen_bruto", ⟨"Margen Bruto", some "pct", some (highGood (20/100) (35/100))⟩),
  ("margen_operativo", ⟨"Margen Operativo", some "pct", some (highGood (8/100) (15/100))⟩),
  ("liquidez_corriente", ⟨"Liquidez Corriente", some "ratio", some (highGood 1 (3/2))⟩),
  ("churn_rate", ⟨"Churn Rate", some "pct", some (lowGood (5/100) (10/100))⟩),
  ("retencion", ⟨"Retención", some "pct", some (highGood (80/100) (90/100))⟩),
  ("ltv_cac", ⟨"LTV/CAC", some "ratio2", some (highGood 2 3)⟩),
  ("payback_cac_meses", ⟨"Payback CAC", some "months", some (lowGood 3 6)⟩),
  ("runway_meses", ⟨"Runway", some "months", some (highGood 3 6)⟩),
  ("arpu", { title := "ARPU", unit := some "money" }),
  ("arpu_anualizado", { title := "ARPU anualizado", unit := some "money" }),
  ("ltv", { title := "LTV", unit := some "money" }),
  ("cac", { title := "CAC", unit := some "money" }),
  ("burn_rate", { title := "Burn Rate", unit := some "money" }),
  ("flujo_operativo", { title := "Flujo Operativo", unit := some "money" }),
  ("arr_anualizado", { title := "ARR (anualizado)", unit := some "money" }),
  ("margen_contribucion", { title := "Margen Contribución", unit := some "money" }),
  ("punto_equilibrio_ratio", { title := "Punto Equilibrio", unit := some "pct" }),
  ("utilizacion_personal", { title := "Utilización Personal", unit := some "pct" }),
  ("productividad_ingreso_por_hora", { title := "Productividad (S/ por hora)", unit := some "money" }),
  ("ratio_costos_fijos", { title := "Ratio Costos Fijos", unit := some "pct" }),
  ("ventas_vs_compras", { title := "Ventas vs Compras", unit := some "money" }),
  ("resultado_igv", { title := "Resultado IGV", unit := some "money" }),
  ("crecimiento_ingresos_pct", { title := "Crecimiento Ingresos", unit := some "pct" }),
  ("crecimiento_utilidad_pct", { title := "Crecimiento Utilidad", unit := some "pct" }),
  ("variacion_costos_pct", { title := "Variación Costos", unit := some "pct" }),
  ("delta_ingresos", { title := "Delta Ingresos", unit := some "money" }),
  ("delta_utilidad", { title := "Delta Utilidad", unit := some "money" }),
  ("cashflow_acumulado", { title := "Cashflow Acumulado", unit := some "money" }),
  ("promedio_ingresos_3m", { title := "Promedio Ingresos 3M", unit := some "money" })]

/-- Registry lookup as performed at every use site:
`KPI_META[kpiKey] || { title: kpiKey, unit: null }` in `KpiCard.jsx` and
`KpiDetailPage.jsx`.  An absent key yields a default entry whose title is
the key itself, with no unit and no rule. -/
def kpiLookup (kpiKey : String) : Meta :=
  (KPI_META.lookup kpiKey).getD { title := kpiKey, unit := none, rule := none }

/-- Left-pad a digit string with zeros to width `w`. -/
def padZeros (w : Nat) (s : String) : String :=
  String.mk (List.replicate (w - s.length) '0') ++ s

/-- `Number.prototype.toFixed(f)` idealised over the rationals: the integer
`n` with `n / 10^f` closest to the value, ties toward the larger `n`,
rendered with exactly `f` decimals. -/
def toFixedQ (f : Nat) (q : ℚ) : String :=
  let n : ℤ := Int.floor (q * (10 : ℚ) ^ f + 1/2)
  let p : Nat := 10 ^ f
  let sign := if n < 0 then "-" else ""
  if f = 0 then sign ++ toString n.natAbs
  else sign ++ toString (n.natAbs / p) ++ "." ++ padZeros f (toString (n.natAbs % p))

/-- Group a reversed digit list in threes (least-significant first). -/
def chunk3 : List Char → List (List Char)
  | [] => []
  | a :: b :: c :: rest => [a, b, c] :: chunk3 rest
  | l => [l]

/-- Insert thousands separators into a digit string, `es-PE` style. -/
def groupThousands (s : String) : String :=
  String.mk (List.intercalate [','] ((chunk3 s.toList.reverse).map List.reverse).reverse)

/-- `toLocaleString("es-PE", { minimumFractionDigits: 2, maximumFractionDigits: 2 })`
idealised over the rationals: two decimals with thousands grouping. -/
def toLocaleES (q : ℚ) : String :=
  let n : ℤ := Int.floor (q * 100 + 1/2)
  let sign := if n < 0 then "-" else ""
  sign ++ groupThousands (toString (n.natAbs / 100)) ++ "." ++ padZeros 2 (toString (n.natAbs % 100))

/-- `String(value)` for a finite JS number, idealised: integers print without
a decimal part, other rationals print as rationals. -/
def jsNumToString (q : ℚ) : String :=
  if q.den = 1 then toString q.num else toString q

/-- `formatValue(value, unit)` from `kpiMeta.js`: `null`/`undefined` renders
as "N/A"; unit `pct` multiplies by 100 and renders two decimals with a
percent sign; `ratio`/`ratio2`/`months`/`money` render with their fixed
precision and suffixes; any other unit falls through to `String(value)`. -/
def formatValue (value : Option ℚ) (unit : Option String) : String :=
  match value with
  | none => "N/A"
  | some v =>
    if unit = some "pct" then toFixedQ 2 (v * 100) ++ "%"
    else if unit = some "ratio" then toFixedQ 4 v
    else if unit = some "ratio2" then toFixedQ 2 v
    else if unit = some "months" then toFixedQ 1 v ++ " meses"
    else if unit = some "money" then "S/ " ++ toLocaleES v
    else jsNumToString v

/-- `latest` in `KpiDetailPage.jsx`:
`series.length ? series[series.length - 1].value : null`. -/
def latestOf (series : List (Option ℚ)) : Option ℚ :=
  if series.length > 0 then series.getD (series.length - 1) none else none

/-- `previous` in `KpiDetailPage.jsx`:
`series.length > 1 ? series[series.length - 2].value : null`. -/
def previousOf (series : List (Option ℚ)) : Option ℚ :=
  if series.length > 1 then series.getD (series.length - 2) none else none

/-- The `trend` memo in `KpiDetailPage.jsx`: `neutral` when either side is
`null`, else strict comparison of latest against previous. -/
def trendFrom (latest previous : Option ℚ) : String :=
  match latest, previous with
  | some a, some b => if a > b then "up" else if a < b then "down" else "neutral"
  | _, _ => "neutral"

/-- Trend of a KPI series, as computed by `KpiDetailPage.jsx`. -/
def trendOf (series : List (Option ℚ)) : String :=
  trendFrom (latestOf series) (previousOf series)

/-- Subtraction on optional values: undefined when either operand is. -/
def oSub : Option ℚ → Option ℚ → Option ℚ
  | some a, some b => some (a - b)
  | _, _ => none

/-- Scaling an optional value: undefined when the operand is. -/
def oScale (k : ℚ) : Option ℚ → Option ℚ
  | some a => some (k * a)
  | none => none

/-- Division with the engine's central edge-case policy: undefined (never
zero, never an error) when the divisor is zero, null, or absent, or when the
dividend is absent. -/
def safeDiv : Option ℚ → Option ℚ → Option ℚ
  | some a, some b => if b = 0 then none else some (a / b)
  | _, _ => none

/-- Modelled from the spec: a `RawPeriodRecord` (§3) — the required
"YYYY-MM" period key plus the fixed set of optional numeric fields.  The
backend that holds this model (`server.py`) is not among the frontend
sources. -/
structure RawPeriodRecord where
  period : String
  revenue : Option ℚ := none
  direct_costs : Option ℚ := none
  fixed_costs : Option ℚ := none
  operating_expenses : Option ℚ := none
  net_income : Option ℚ := none
  operating_income : Option ℚ := none
  current_assets : Option ℚ := none
  current_liabilities : Option ℚ := none
  active_customers : Option ℚ := none
  new_customers : Option ℚ := none
  lost_customers : Option ℚ := none
  available_hours : Option ℚ := none
  billed_hours : Option ℚ := none
  commercial_spend : Option ℚ := none
  cash_on_hand : Option ℚ := none
  total_outflows : Option ℚ := none
  gross_sales : Option ℚ := none
  gross_purchases : Option ℚ := none
  sales_tax_collected : Option ℚ := none
  sales_tax_paid : Option ℚ := none
deriving DecidableEq

/-- The per-period KPI map produced by the Single-Period Calculator. -/
structure KpiMap where
  margen_neto : Option ℚ
  margen_bruto : Option ℚ
  margen_operativo : Option ℚ
  margen_contribucion : Option ℚ
  ratio_costos_fijos : Option ℚ
  punto_equilibrio_ratio : Option ℚ
  liquidez_corriente : Option ℚ
  flujo_operativo : Option ℚ
  utilizacion_personal : Option ℚ
  productividad_ingreso_por_hora : Option ℚ
  arpu : Option ℚ
  arpu_anualizado : Option ℚ
  churn_rate : Option ℚ
  retencion : Option ℚ
  ltv : Option ℚ
  cac : Option ℚ
  ltv_cac : Option ℚ
  payback_cac_meses : Option ℚ
  ventas_vs_compras : Option ℚ
  resultado_igv : Option ℚ
  burn_rate : Option ℚ
  runway_meses : Option ℚ
  arr_anualizado : Option ℚ
deriving DecidableEq

/-- Modelled from the spec: the Single-Period Calculator (§4.3), whose
backend implementation (`server.py`) is not among the frontend sources.
Each formula follows the table of §4.3; every division uses `safeDiv`, so a
zero, null or absent divisor yields undefined for that KPI only. -/
def computeKpis (r : RawPeriodRecord) : KpiMap :=
  let margen_contribucion := oSub r.revenue r.direct_costs
  let arpu := safeDiv r.revenue r.active_customers
  let churn_rate := safeDiv r.lost_customers r.active_customers
  let ltv := safeDiv arpu churn_rate
  let cac := safeDiv r.commercial_spend r.new_customers
  let burn_rate := r.total_outflows
  { margen_neto := safeDiv r.net_income r.revenue
    margen_bruto := safeDiv (oSub r.revenue r.direct_costs) r.revenue
    margen_operativo := safeDiv r.operating_income r.revenue
    margen_contribucion := margen_contribucion
    ratio_costos_fijos := safeDiv r.fixed_costs r.revenue
    punto_equilibrio_ratio := safeDiv r.fixed_costs margen_contribucion
    liquidez_corriente := safeDiv r.current_assets r.current_liabilities
    flujo_operativo := oSub (oSub r.revenue r.direct_costs) r.operating_expenses
    utilizacion_personal := safeDiv r.billed_hours r.available_hours
    productividad_ingreso_por_hora := safeDiv r.revenue r.billed_hours
    arpu := arpu
    arpu_anualizado := oScale 12 arpu
    churn_rate := churn_rate
    retencion := oSub (some 1) churn_rate
    ltv := ltv
    cac := cac
    ltv_cac := safeDiv ltv cac
    payback_cac_meses := safeDiv cac arpu
    ventas_vs_compras := oSub r.gross_sales r.gross_purchases
    resultado_igv := oSub r.sales_tax_collected r.sales_tax_paid
    burn_rate := burn_rate
    runway_meses := safeDiv r.cash_on_hand burn_rate
    arr_anualizado := oScale 12 r.revenue }

/-- Running-total pass over the operating-flow series, carrying the
accumulator forward; an undefined flow contributes 0 without resetting the
total. -/
def cashflowAux (acc : ℚ) : List (Option ℚ) → List ℚ
  | [] => []
  | f :: rest =>
    let c := acc + f.getD 0
    c :: cashflowAux c rest

/-- Modelled from the spec: `cashflow_acumulado` (§4.4), whose backend
implementation (`server.py`) is not among the frontend sources.
`cashflow_acumulado[i] = cashflow_acumulado[i-1] + flujo_operativo[i]`,
starting at `flujo_operativo[0]`; an undefined flow is a 0 contribution and
does not reset the running total. -/
def cashflowAcumulado (flujos : List (Option ℚ)) : List ℚ :=
  cashflowAux 0 flujos

/-- Ordering of period records by their "YYYY-MM" period key (lexical order,
chronological because the format is fixed-width and zero-padded). -/
def periodLe (a b : RawPeriodRecord) : Prop := a.period ≤ b.period

instance : DecidableRel periodLe :=
  fun a b => inferInstanceAs (Decidable (a.period ≤ b.period))

instance : IsTotal RawPeriodRecord periodLe :=
  ⟨fun a b => le_total a.period b.period⟩

instance : IsTrans RawPeriodRecord periodLe :=
  ⟨fun _ _ _ hab hbc => le_trans hab hbc⟩

/-- Modelled from the spec: the Period Normalizer (§4.2), whose backend
implementation (`server.py`) is not among the frontend sources.  It sorts
the submitted records ascending by period key before any cross-period
computation runs. -/
def normalizePeriods (records : List RawPeriodRecord) : List RawPeriodRecord :=
  records.insertionSort periodLe

/-- One step of the cross-period growth pass: each value is compared against
the carried previous value. -/
def growthStep (prev : Option ℚ) : List (Option ℚ) → List (Option ℚ)
  | [] => []
  | v :: rest => safeDiv (oSub v prev) prev :: growthStep v rest

/-- Modelled from the spec: the period-over-period growth series (§4.4),
whose backend implementation (`server.py`) is not among the frontend
sources.  `growth[i] = (x[i] - x[i-1]) / x[i-1]`, undefined at i = 0 and
whenever the previous value is zero or absent. -/
def growthSeries : List (Option ℚ) → List (Option ℚ)
  | [] => []
  | v :: rest => none :: growthStep v rest

/-- Modelled from the spec: `crecimiento_ingresos_pct` over a normalized
series — the growth pass applied to the revenue column in chronological
order. -/
def crecimientoIngresosPct (records : List RawPeriodRecord) : List (Option ℚ) :=
  growthSeries ((normalizePeriods records).map RawPeriodRecord.revenue)

/-- The §8 ordering-invariant example: three periods submitted out of
chronological order, with distinct revenues. -/
def outOfOrderRecords : List RawPeriodRecord :=
  [{ period := "2024-01", revenue := some 1000 },
   { period := "2024-03", revenue := some 1500 },
   { period := "2024-02", revenue := some 1200 }]

/-- A concrete record for the churn scenario of §8: revenue absent,
zero lost customers, ten active customers. -/
def churnScenarioRecord : RawPeriodRecord :=
  { period := "2024-01", revenue := none, lost_customers := some 0,
    active_customers := some 10 }

/-- `safeDiv` yields undefined whenever the divisor is null/absent or
zero, whatever the dividend. -/
lemma safeDiv_bad (a : Option ℚ) {b : Option ℚ} (h : b = none ∨ b = some 0) :
    safeDiv a b = none := by
  rcases h with h | h <;> subst h <;> cases a <;> simp [safeDiv]

/-- C2: for a defined finite value, `trafficLight` classifies by bands with
each boundary falling into the better band: under `high_good(redMax,
yellowMax)` a value below `redMax` is critical, from `redMax` up to (but
excluding) `yellowMax` is warning, and from `yellowMax` up is healthy;
under `low_good(greenMax, yellowMax)` a value up to `greenMax` is healthy,
above `greenMax` up to `yellowMax` is warning, and above `yellowMax` is
critical.  In particular the value 0.05 under margen_neto's rule
`high_good(0.05, 0.15)` is warning, not critical. -/
theorem trafficLight_band_semantics (ti : String) (u : Option String)
    (v rM yM gM yM2 : ℚ) (hhg : rM ≤ yM) (hlg : gM ≤ yM2) :
    (v < rM →
      trafficLight (some (JNum.num v)) (some ⟨ti, u, some (highGood rM yM)⟩) = semCritico) ∧
    (rM ≤ v → v < yM →
      trafficLight (some (JNum.num v)) (some ⟨ti, u, some (highGood rM yM)⟩) = semAtencion) ∧
    (yM ≤ v →
      trafficLight (some (JNum.num v)) (some ⟨ti, u, some (highGood rM yM)⟩) = semSaludable) ∧
    (v ≤ gM →
      trafficLight (some (JNum.num v)) (some ⟨ti, u, some (lowGood gM yM2)⟩) = semSaludable) ∧
    (gM < v → v ≤ yM2 →
      trafficLight (some (JNum.num v)) (some ⟨ti, u, some (lowGood gM yM2)⟩) = semAtencion) ∧
    (yM2 < v →
      trafficLight (some (JNum.num v)) (some ⟨ti, u, some (lowGood gM yM2)⟩) = semCritico) ∧
    trafficLight (some (JNum.num (5/100))) (some (kpiLookup "margen_neto")) = semAtencion := by
  refine ⟨?_, ?_, ?_, ?_, ?_, ?_, ?_⟩
  · intro h
    simp [trafficLight, highGood, JNum.ltQ, h]
  · intro h1 h2
    have h0 : ¬ v < rM := not_lt.2 h1
    simp [trafficLight, highGood, JNum.ltQ, h0, h2]
  · intro h
    have h1 : ¬ v < yM := not_lt.2 h
    have h0 : ¬ v < rM := not_lt.2 (le_trans hhg h)
    simp [trafficLight, highGood, JNum.ltQ, h0, h1]
  · intro h
    simp [trafficLight, lowGood, JNum.leQ, h]
  · intro h1 h2
    have h0 : ¬ v ≤ gM := not_le.2 h1
    simp [trafficLight, lowGood, JNum.leQ, h0, h2]
  · intro h
    have h1 : ¬ v ≤ yM2 := not_le.2 h
    have h0 : ¬ v ≤ gM := not_le.2 (lt_of_le_of_lt hlg h)
    simp [trafficLight, lowGood, JNum.leQ, h0, h1]
  · rw [show kpiLookup "margen_neto" =
        ⟨"Margen Neto", some "pct", some (highGood (5/100) (15/100))⟩ from rfl]
    have h0 : ¬ (5/100 : ℚ) < 5/100 := lt_irrefl _
    have h1 : (5/100 : ℚ) < 15/100 := by norm_num
    simp [trafficLight, highGood, JNum.ltQ, h0, h1]

/-- Witness for C2 at the boundary scenario: 0.05 under margen_neto's
`high_good(0.05, 0.15)` rule classifies as warning. -/
theorem trafficLight_band_semantics_witness :
    trafficLight (some (JNum.num (5/100))) (some (kpiLookup "margen_neto")) = semAtencion :=
  (trafficLight_band_semantics "" none 0 (5/100) (15/100) 0 0
    (by norm_num) le_rfl).2.2.2.2.2.2

/-- C4: an undefined value, an undefined meta, or a meta without a rule all
classify to the "Sin semáforo" (severity none) result, whatever the rest of
the input. -/
theorem trafficLight_none_inputs (value : Option JNum) (meta : Option Meta) (m : Meta) :
    trafficLight none meta = semSinSemaforo ∧
    trafficLight value none = semSinSemaforo ∧
    (m.rule = none → trafficLight value (some m) = semSinSemaforo) := by
  refine ⟨rfl, ?_, ?_⟩
  · cases value <;> rfl
  · intro h
    cases value <;> simp [trafficLight, h]

/-- Witness for C4: a defined value with a rule-less meta (ARPU's registry
entry) classifies to "Sin semáforo". -/
theorem trafficLight_none_inputs_witness :
    trafficLight (some (JNum.num 7)) (some (kpiLookup "arpu")) = semSinSemaforo :=
  (trafficLight_none_inputs (some (JNum.num 7)) none (kpiLookup "arpu")).2.2 rfl

/-- C10: a defined value with a rule whose type string is neither
"high_good" nor "low_good" falls through to the `OK` result with the
emerald (healthy) styling — it is not the severity-none result. -/
theorem trafficLight_unknown_rule_type (v : JNum) (m : Meta) (r : Rule)
    (h1 : m.rule = some r) (h2 : r.type_ ≠ "high_good") (h3 : r.type_ ≠ "low_good") :
    trafficLight (some v) (some m) = semOK ∧
    semOK.label = "OK" ∧ semOK.color = "emerald" ∧ semOK ≠ semSinSemaforo := by
  refine ⟨?_, rfl, rfl, by decide⟩
  simp [trafficLight, h1, h2, h3]

/-- Witness for C10: a rule with type "custom" classifies a defined value
as `OK`. -/
theorem trafficLight_unknown_rule_type_witness :
    trafficLight (some (JNum.num 1)) (some ⟨"X", none, some ⟨"custom", 0, 0, 0⟩⟩) = semOK :=
  (trafficLight_unknown_rule_type (JNum.num 1) ⟨"X", none, some ⟨"custom", 0, 0, 0⟩⟩
    ⟨"custom", 0, 0, 0⟩ rfl (by decide) (by decide)).1

/-- C3 counterexample: the claim that any value outside the expected
numeric range is classified with severity none fails — NaN under
margen_neto's `high_good` rule falls through both strict comparisons and is
classified "Saludable" (healthy), not "Sin semáforo". -/
theorem trafficLight_nan_not_none :
    trafficLight (some JNum.nan) (some (kpiLookup "margen_neto")) = semSaludable ∧
    semSaludable ≠ semSinSemaforo := by
  constructor
  · rw [show kpiLookup "margen_neto" =
        ⟨"Margen Neto", some "pct", some (highGood (5/100) (15/100))⟩ from rfl]
    simp [trafficLight, highGood, JNum.ltQ]
  · decide

/-- C3 amended: the classifier is total (it always returns a result), but a
value outside the expected numeric range is not classified as severity
none; instead it follows the band comparisons, where every comparison with
NaN is false: under any `high_good` rule NaN and +∞ classify as healthy and
−∞ as critical, and under any `low_good` rule NaN and +∞ classify as
critical and −∞ as healthy. -/
theorem trafficLight_total_nonfinite (ti : String) (u : Option String) (rM yM gM yM2 : ℚ) :
    trafficLight (some JNum.nan) (some ⟨ti, u, some (highGood rM yM)⟩) = semSaludable ∧
    trafficLight (some JNum.posInf) (some ⟨ti, u, some (highGood rM yM)⟩) = semSaludable ∧
    trafficLight (some JNum.negInf) (some ⟨ti, u, some (highGood rM yM)⟩) = semCritico ∧
    trafficLight (some JNum.nan) (some ⟨ti, u, some (lowGood gM yM2)⟩) = semCritico ∧
    trafficLight (some JNum.posInf) (some ⟨ti, u, some (lowGood gM yM2)⟩) = semCritico ∧
    trafficLight (some JNum.negInf) (some ⟨ti, u, some (lowGood gM yM2)⟩) = semSaludable := by
  refine ⟨?_, ?_, ?_, ?_, ?_, ?_⟩ <;>
    simp [trafficLight, highGood, lowGood, JNum.ltQ, JNum.leQ]

/-- C5: a key absent from the registry resolves to the default definition
whose title is the key itself, with no unit and no rule; consequently it
classifies to severity none for every value, and a defined numeric value
renders as a plain number (the `String(value)` fallthrough). -/
theorem kpiLookup_unknown_default (k : String) (h : KPI_META.lookup k = none)
    (v : Option JNum) (q : ℚ) :
    kpiLookup k = ⟨k, none, none⟩ ∧
    trafficLight v (some (kpiLookup k)) = semSinSemaforo ∧
    formatValue (some q) (kpiLookup k).unit = jsNumToString q := by
  have hd : kpiLookup k = ⟨k, none, none⟩ := by
    simp [kpiLookup, h]
  refine ⟨hd, ?_, ?_⟩
  · cases v <;> simp [trafficLight, hd]
  · rw [hd]
    simp [formatValue]

/-- Witness for C5: the unknown key "foo" resolves to the harmless default,
classifies to "Sin semáforo", and renders a plain number. -/
theorem kpiLookup_unknown_default_witness :
    kpiLookup "foo" = ⟨"foo", none, none⟩ ∧
    trafficLight (some (JNum.num 7)) (some (kpiLookup "foo")) = semSinSemaforo ∧
    formatValue (some 7) (kpiLookup "foo").unit = jsNumToString 7 :=
  kpiLookup_unknown_default "foo" (by decide) (some (JNum.num 7)) 7

/-- C6: the trend indicator compares the latest and prior series value:
`up` exactly when the latest is strictly greater, `down` exactly when
strictly smaller, `neutral` exactly when equal; and `neutral` whenever
either side is undefined, which includes every series of length 0 or 1. -/
theorem trend_semantics (s : List (Option ℚ)) (a b : ℚ) :
    (latestOf s = some a → previousOf s = some b →
      ((trendOf s = "up" ↔ b < a) ∧ (trendOf s = "down" ↔ a < b) ∧
        (trendOf s = "neutral" ↔ a = b))) ∧
    ((latestOf s = none ∨ previousOf s = none) → trendOf s = "neutral") ∧
    (s.length ≤ 1 → trendOf s = "neutral") := by
  refine ⟨?_, ?_, ?_⟩
  · intro h1 h2
    unfold trendOf trendFrom
    rw [h1, h2]
    dsimp only [gt_iff_lt]
    rcases lt_trichotomy a b with hab | hab | hab
    · rw [if_neg (not_lt.2 hab.le), if_pos hab]
      exact ⟨⟨fun h => absurd h (by decide), fun hba => absurd (hba.trans hab) (lt_irrefl _)⟩,
        ⟨fun _ => hab, fun _ => rfl⟩,
        ⟨fun h => absurd h (by decide), fun he => absurd (he ▸ hab) (lt_irrefl _)⟩⟩
    · subst hab
      rw [if_neg (lt_irrefl a), if_neg (lt_irrefl a)]
      exact ⟨⟨fun h => absurd h (by decide), fun hba => absurd hba (lt_irrefl _)⟩,
        ⟨fun h => absurd h (by decide), fun hba => absurd hba (lt_irrefl _)⟩,
        ⟨fun _ => rfl, fun _ => rfl⟩⟩
    · rw [if_pos hab]
      exact ⟨⟨fun _ => hab, fun _ => rfl⟩,
        ⟨fun h => absurd h (by decide), fun h => absurd (h.trans hab) (lt_irrefl _)⟩,
        ⟨fun h => absurd h (by decide), fun he => absurd (he ▸ hab) (lt_irrefl _)⟩⟩
  · intro h
    rcases h with h | h <;> unfold trendOf trendFrom <;> rw [h] <;>
      cases previousOf s <;> cases latestOf s <;> rfl
  · intro h
    have hp : previousOf s = none := by
      unfold previousOf
      have : ¬ s.length > 1 := by omega
      simp [this]
    unfold trendOf trendFrom
    rw [hp]
    cases latestOf s <;> rfl

/-- Witness for C6: for the two-point series [1, 2] the trend is `up`. -/
theorem trend_semantics_witness : trendOf [some 1, some 2] = "up" :=
  ((trend_semantics [some 1, some 2] 2 1).1 rfl rfl).1.mpr (by norm_num)

/-- C7: the formatter, not the engine, converts fraction-stored percentages
for display: a null value renders "N/A" under every unit, and a defined
value with unit `pct` renders the value times 100 to two decimals with a
percent sign — the stored fraction 0.15 renders as "15.00%". -/
theorem formatValue_pct_spec (u : Option String) (q : ℚ) :
    formatValue none u = "N/A" ∧
    formatValue (some q) (some "pct") = toFixedQ 2 (q * 100) ++ "%" ∧
    formatValue (some (15/100)) (some "pct") = "15.00%" := by
  refine ⟨rfl, by simp [formatValue], ?_⟩
  have h : ((15 : ℚ)/100 * 100 : ℚ) = 15 := by norm_num
  have hf : Int.floor ((15 : ℚ) * (10 : ℚ) ^ (2 : ℕ) + 1/2) = 1500 := by norm_num
  simp only [formatValue, h, toFixedQ, hf]
  decide

/-- C1: in the Single-Period Calculator every formula that divides by a
field yields undefined — not zero, not an error — when its divisor is zero,
null or absent, while every other independently-computable KPI for the
same period still computes; in particular a record with zero lost customers
and nonzero active customers has churn_rate = 0 and retencion = 1 defined,
while ltv (division by zero churn) is undefined. -/
theorem singlePeriod_division_policy (r : RawPeriodRecord) (a : ℚ) :
    ((r.revenue = none ∨ r.revenue = some 0) →
      (computeKpis r).margen_neto = none ∧ (computeKpis r).margen_bruto = none ∧
      (computeKpis r).margen_operativo = none ∧ (computeKpis r).ratio_costos_fijos = none) ∧
    ((r.active_customers = none ∨ r.active_customers = some 0) →
      (computeKpis r).arpu = none ∧ (computeKpis r).churn_rate = none ∧
      (computeKpis r).ltv = none) ∧
    ((r.current_liabilities = none ∨ r.current_liabilities = some 0) →
      (computeKpis r).liquidez_corriente = none) ∧
    ((r.available_hours = none ∨ r.available_hours = some 0) →
      (computeKpis r).utilizacion_personal = none) ∧
    ((r.billed_hours = none ∨ r.billed_hours = some 0) →
      (computeKpis r).productividad_ingreso_por_hora = none) ∧
    ((r.new_customers = none ∨ r.new_customers = some 0) →
      (computeKpis r).cac = none ∧ (computeKpis r).ltv_cac = none) ∧
    ((r.total_outflows = none ∨ r.total_outflows = some 0) →
      (computeKpis r).runway_meses = none) ∧
    (((computeKpis r).margen_contribucion = none ∨
        (computeKpis r).margen_contribucion = some 0) →
      (computeKpis r).punto_equilibrio_ratio = none) ∧
    ((computeKpis r).churn_rate = some 0 → (computeKpis r).ltv = none) ∧
    (r.lost_customers = some 0 → r.active_customers = some a → a ≠ 0 →
      (computeKpis r).churn_rate = some 0 ∧ (computeKpis r).retencion = some 1 ∧
      (computeKpis r).ltv = none) := by
  refine ⟨?_, ?_, ?_, ?_, ?_, ?_, ?_, ?_, ?_, ?_⟩
  · intro h
    exact ⟨safeDiv_bad _ h, safeDiv_bad _ h, safeDiv_bad _ h, safeDiv_bad _ h⟩
  · intro h
    exact ⟨safeDiv_bad _ h, safeDiv_bad _ h, safeDiv_bad _ (Or.inl (safeDiv_bad _ h))⟩
  · intro h
    exact safeDiv_bad _ h
  · intro h
    exact safeDiv_bad _ h
  · intro h
    exact safeDiv_bad _ h
  · intro h
    exact ⟨safeDiv_bad _ h, safeDiv_bad _ (Or.inl (safeDiv_bad _ h))⟩
  · intro h
    exact safeDiv_bad _ h
  · intro h
    exact safeDiv_bad _ h
  · intro h
    exact safeDiv_bad _ (Or.inr h)
  · intro h1 h2 ha
    have hch : (computeKpis r).churn_rate = some 0 := by
      show safeDiv r.lost_customers r.active_customers = some 0
      rw [h1, h2]
      simp [safeDiv, ha]
    refine ⟨hch, ?_, safeDiv_bad _ (Or.inr hch)⟩
    show oSub (some 1) (safeDiv r.lost_customers r.active_customers) = some 1
    rw [h1, h2]
    simp [safeDiv, oSub, ha]

/-- Witness for C1: the §8 churn scenario record (revenue absent, zero lost
customers, ten active customers) has churn_rate 0, retención 1 and
undefined ltv, and its revenue-denominator margins are all undefined. -/
theorem singlePeriod_division_policy_witness :
    ((computeKpis churnScenarioRecord).churn_rate = some 0 ∧
      (computeKpis churnScenarioRecord).retencion = some 1 ∧
      (computeKpis churnScenarioRecord).ltv = none) ∧
    (computeKpis churnScenarioRecord).margen_neto = none ∧
    (computeKpis churnScenarioRecord).margen_bruto = none ∧
    (computeKpis churnScenarioRecord).margen_operativo = none ∧
    (computeKpis churnScenarioRecord).ratio_costos_fijos = none :=
  ⟨(singlePeriod_division_policy churnScenarioRecord 10).2.2.2.2.2.2.2.2.2
      rfl rfl (by norm_num),
   (singlePeriod_division_policy churnScenarioRecord 10).1 (Or.inl rfl)⟩

/-- Index-wise description of the running-total pass: entry `i` is the
carried accumulator plus the prefix sum of the defined flows up to `i`. -/
lemma cashflowAux_getD (fs : List (Option ℚ)) :
    ∀ (acc : ℚ) (i : ℕ), i < fs.length →
      (cashflowAux acc fs).getD i 0 =
        acc + (((fs.take (i + 1)).map (fun f => f.getD 0)).sum) := by
  induction fs with
  | nil =>
    intro acc i h
    simp at h
  | cons f rest ih =>
    intro acc i h
    cases i with
    | zero => simp [cashflowAux]
    | succ n =>
      have hn : n < rest.length := by simpa using h
      simp only [cashflowAux, List.getD_cons_succ, List.take_succ_cons, List.map_cons,
        List.sum_cons]
      rw [ih _ n hn]
      ring

/-- C8: `cashflow_acumulado[i]` is the prefix sum of `flujo_operativo`
through index `i` (starting at `flujo_operativo[0]`), an undefined flow
contributing 0 without resetting the running total; concretely flows
[100, −50, 200] accumulate to [100, 50, 250]. -/
theorem cashflow_prefix_sum (fs : List (Option ℚ)) (i : ℕ) (h : i < fs.length) :
    (cashflowAcumulado fs).getD i 0 =
      (((fs.take (i + 1)).map (fun f => f.getD 0)).sum) ∧
    cashflowAcumulado [some 100, some (-50), some 200] = [100, 50, 250] := by
  constructor
  · have := cashflowAux_getD fs 0 i h
    simpa [cashflowAcumulado] using this
  · norm_num [cashflowAcumulado, cashflowAux]

/-- Witness for C8: at index 1 of the flows [100, −50, 200] the cumulative
cashflow is the prefix sum 50. -/
theorem cashflow_prefix_sum_witness :
    (cashflowAcumulado [some 100, some (-50), some 200]).getD 1 0 =
      ((([some (100 : ℚ), some (-50), some 200].take 2).map (fun f => f.getD 0)).sum) :=
  (cashflow_prefix_sum [some 100, some (-50), some 200] 1 (by norm_num)).1

/-- C9: the Period Normalizer outputs records sorted ascending by their
"YYYY-MM" period key for every input order, and on the out-of-order input
["2024-01", "2024-03", "2024-02"] it produces ["2024-01", "2024-02",
"2024-03"]; revenue growth then compares each period against its
chronological predecessor: "2024-02" gets (1200 − 1000)/1000 = 0.2 against
"2024-01" (not against the input-order neighbour "2024-03"). -/
theorem normalizer_sorts_periods (rs : List RawPeriodRecord) :
    List.Sorted (· ≤ ·) ((normalizePeriods rs).map RawPeriodRecord.period) ∧
    (normalizePeriods outOfOrderRecords).map RawPeriodRecord.period =
      ["2024-01", "2024-02", "2024-03"] ∧
    crecimientoIngresosPct outOfOrderRecords = [none, some (1/5), some (1/4)] := by
  refine ⟨?_, ?_, ?_⟩
  · have hs := List.sorted_insertionSort periodLe rs
    exact List.pairwise_map.mpr (hs.imp (fun h => h))
  · simp [normalizePeriods, outOfOrderRecords, List.insertionSort, List.orderedInsert,
      periodLe, String.le_iff_toList_le]
    decide
  · simp +decide [crecimientoIngresosPct, normalizePeriods, outOfOrderRecords,
      List.insertionSort, List.orderedInsert, periodLe, String.le_iff_toList_le,
      growthSeries, growthStep, safeDiv, oSub]
    norm_num
